import Mathlib

/-!
Verification of the MRP packet parser (`src/lib.rs` of `parse_mrp_packet`).

Bytes are modelled as natural numbers; byte buffers as `List Nat`.
The Rust parser returns `Option<MRPData>`; each distinct `return None`
site is labelled by the reason the source comments give for it
("Insufficient data ..." / "Unknown TLV type" / the `.ok()?` on
`Uuid::from_slice`), and a Rust panic (out-of-bounds slice or index)
is modelled as the separate outcome `ParseError.panic`, so that clean
failure and faulting are distinguishable in the embedding.
-/

/-- The reason a decode ends without a document.  The first three mirror
the three kinds of `return None` in `parse_mrp_data` plus the `.ok()?`
escape on `Uuid::from_slice`; `panic` models a Rust slice/index panic,
which is a fault, not a returned value. -/
inductive ParseError where
  | tooShort : ParseError
  | unknownKind : Nat → ParseError
  | malformedUuid : ParseError
  | panic : ParseError
deriving DecidableEq, Repr

/-- `MacAddress([u8; 6])` from the source. -/
structure MacAddress where
  bytes : List Nat
deriving DecidableEq, Repr

/-- `uuid::Uuid` as its 16 raw bytes. -/
structure Uuid where
  bytes : List Nat
deriving DecidableEq, Repr

/-- `MRPTestData` from the source. -/
structure MRPTestData where
  prio : Nat
  sa : MacAddress
  port_role : Nat
  ring_state : Nat
  transition : Nat
  timestamp : Nat
deriving DecidableEq, Repr

/-- `MRPCommonData` from the source. -/
structure MRPCommonData where
  sequence_id : Nat
  domain_uuid : Uuid
deriving DecidableEq, Repr

/-- `MRPOptionData` from the source. -/
structure MRPOptionData where
  manufacturer_oui : List Nat
  ed1_type : Nat
  ed1_manufacturer_data : Nat
deriving DecidableEq, Repr

/-- `MRPTLVData` from the source. -/
inductive MRPTLVData where
  | MRPTest : MRPTestData → MRPTLVData
  | MRPCommon : MRPCommonData → MRPTLVData
  | MRPOption : MRPOptionData → MRPTLVData
  | MRPEnd : MRPTLVData
deriving DecidableEq, Repr

/-- `MRPTLVHeader` from the source. -/
structure MRPTLVHeader where
  tlv_type : Nat
  length : Nat
  data : MRPTLVData
deriving DecidableEq, Repr

/-- `MRPData` from the source. -/
structure MRPData where
  version : Nat
  tlv_headers : List MRPTLVHeader
deriving DecidableEq, Repr

/-- Rust slice expression `&x[a..b]`: `none` models the panic when
`a > b` or `b > x.len()`, otherwise the sub-slice. -/
def rustSlice (x : List Nat) (a b : Nat) : Option (List Nat) :=
  if a ≤ b ∧ b ≤ x.length then some ((x.drop a).take (b - a)) else none

/-- Rust index expression `x[i]`: `none` models the panic when out of range. -/
def rustIndex (x : List Nat) (i : Nat) : Option Nat :=
  x.get? i

/-- `parse_mac_address` / `MacAddress::from`: in every call site of the
parser the argument is a 6-byte slice, on which `copy_from_slice` succeeds. -/
def parse_mac_address (data : List Nat) : MacAddress :=
  ⟨data⟩

/-- `parse_u16`: `u16::from_be_bytes([data[0], data[1]])`.  All call sites
pass a slice of exactly 2 bytes, so the `getD` defaults are never used. -/
def parse_u16 (data : List Nat) : Nat :=
  256 * data.getD 0 0 + data.getD 1 0

/-- `parse_u32`: `u32::from_be_bytes([data[0], data[1], data[2], data[3]])`.
All call sites pass a slice of exactly 4 bytes. -/
def parse_u32 (data : List Nat) : Nat :=
  256 * (256 * (256 * data.getD 0 0 + data.getD 1 0) + data.getD 2 0) + data.getD 3 0

/-- `Uuid::from_slice`: succeeds exactly on slices of 16 bytes. -/
def uuidFromSlice (s : List Nat) : Option Uuid :=
  if s.length = 16 then some ⟨s⟩ else none

/-- The `match tlv_type` arm of the parser loop: builds one `MRPTLVHeader`
from the record's type, declared length, and body slice `tlv_data`.
Out-of-range fixed-offset sub-slices/indexes into `tlv_data` are panics. -/
def parseRecord (tlv_type : Nat) (length : Nat) (tlv_data : List Nat) :
    Except ParseError MRPTLVHeader :=
  if tlv_type = 0x02 then
    match rustSlice tlv_data 0 2, rustSlice tlv_data 2 8, rustSlice tlv_data 8 10,
        rustSlice tlv_data 10 12, rustSlice tlv_data 12 14, rustSlice tlv_data 14 18 with
    | some s1, some s2, some s3, some s4, some s5, some s6 =>
        .ok ⟨tlv_type, length, .MRPTest ⟨parse_u16 s1, parse_mac_address s2,
          parse_u16 s3, parse_u16 s4, parse_u16 s5, parse_u32 s6⟩⟩
    | _, _, _, _, _, _ => .error .panic
  else if tlv_type = 0x01 then
    match rustSlice tlv_data 0 2, rustSlice tlv_data 2 18 with
    | some s1, some s2 =>
        match uuidFromSlice s2 with
        | some u => .ok ⟨tlv_type, length, .MRPCommon ⟨parse_u16 s1, u⟩⟩
        | none => .error .malformedUuid
    | _, _ => .error .panic
  else if tlv_type = 0x7f then
    match rustIndex tlv_data 0, rustIndex tlv_data 1, rustIndex tlv_data 2,
        rustIndex tlv_data 3, rustSlice tlv_data 4 6 with
    | some a, some b, some c, some d, some s =>
        .ok ⟨tlv_type, length, .MRPOption ⟨[a, b, c], d, parse_u16 s⟩⟩
    | _, _, _, _, _ => .error .panic
  else if tlv_type = 0x00 then
    .ok ⟨tlv_type, 0, .MRPEnd⟩
  else
    .error (.unknownKind tlv_type)

/-- The `while offset < data.len()` loop of `parse_mrp_data`, collecting
the TLV headers from `offset` to the end of the buffer. -/
def parseTLVs (data : List Nat) (offset : Nat) :
    Except ParseError (List MRPTLVHeader) :=
  if _h : offset < data.length then
    if data.length < offset + 2 then .error .tooShort
    else
      let tlv_type := data.getD offset 0
      let length := data.getD (offset + 1) 0
      if data.length < offset + 2 + length then .error .tooShort
      else
        match rustSlice data (offset + 2) (offset + 2 + length) with
        | none => .error .panic
        | some tlv_data =>
          match parseRecord tlv_type length tlv_data with
          | .error e => .error e
          | .ok hdr =>
            match parseTLVs data (offset + 2 + length) with
            | .error e => .error e
            | .ok rest => .ok (hdr :: rest)
  else .ok []
termination_by data.length - offset
decreasing_by omega

/-- `parse_mrp_data` from the source: version check, big-endian version,
then the TLV loop from offset 2. -/
def parse_mrp_data (data : List Nat) : Except ParseError MRPData :=
  if data.length < 2 then .error .tooShort
  else
    match rustSlice data 0 2 with
    | none => .error .panic
    | some s =>
      let version := parse_u16 s
      match parseTLVs data 2 with
      | .error e => .error e
      | .ok tlv_headers => .ok ⟨version, tlv_headers⟩

/-- Fuel-indexed version of the TLV loop, used to reason about (and
compute with) the loop by structural recursion; `none` means the fuel ran
out before the cursor reached the end of the buffer. -/
def parseTLVsFuel (fuel : Nat) (data : List Nat) (offset : Nat) :
    Option (Except ParseError (List MRPTLVHeader)) :=
  match fuel with
  | 0 => none
  | fuel + 1 =>
    if offset < data.length then
      if data.length < offset + 2 then some (.error .tooShort)
      else
        let tlv_type := data.getD offset 0
        let length := data.getD (offset + 1) 0
        if data.length < offset + 2 + length then some (.error .tooShort)
        else
          match rustSlice data (offset + 2) (offset + 2 + length) with
          | none => some (.error .panic)
          | some tlv_data =>
            match parseRecord tlv_type length tlv_data with
            | .error e => some (.error e)
            | .ok hdr =>
              match parseTLVsFuel fuel data (offset + 2 + length) with
              | none => none
              | some (.error e) => some (.error e)
              | some (.ok rest) => some (.ok (hdr :: rest))
    else some (.ok [])

theorem parseTLVsFuel_spec (data : List Nat) :
    ∀ fuel offset, data.length - offset < fuel →
      parseTLVsFuel fuel data offset = some (parseTLVs data offset) := by
  intro fuel
  induction fuel with
  | zero => intro offset h; omega
  | succ n ih =>
    intro offset h
    rw [parseTLVs, parseTLVsFuel]
    by_cases h1 : offset < data.length
    · rw [dif_pos h1, if_pos h1]
      by_cases h2 : data.length < offset + 2
      · rw [if_pos h2, if_pos h2]
      · rw [if_neg h2, if_neg h2]
        by_cases h3 : data.length < offset + 2 + data.getD (offset + 1) 0
        · rw [if_pos h3, if_pos h3]
        · rw [if_neg h3, if_neg h3]
          cases hs : rustSlice data (offset + 2) (offset + 2 + data.getD (offset + 1) 0) with
          | none => rfl
          | some body =>
            dsimp only []
            cases hr : parseRecord (data.getD offset 0) (data.getD (offset + 1) 0) body with
            | error e => rfl
            | ok hdr =>
              dsimp only []
              rw [ih (offset + 2 + data.getD (offset + 1) 0) (by omega)]
              cases parseTLVs data (offset + 2 + data.getD (offset + 1) 0) <;> rfl
    · rw [dif_neg h1, if_neg h1]

/-- Fuel-indexed version of `parse_mrp_data`, total and computable by
structural recursion: used to evaluate the parser on concrete inputs. -/
def parse_mrp_dataFuel (data : List Nat) : Option (Except ParseError MRPData) :=
  if data.length < 2 then some (.error .tooShort)
  else
    match rustSlice data 0 2 with
    | none => some (.error .panic)
    | some s =>
      let version := parse_u16 s
      match parseTLVsFuel (data.length + 1) data 2 with
      | none => none
      | some (.error e) => some (.error e)
      | some (.ok tlv_headers) => some (.ok ⟨version, tlv_headers⟩)

theorem parse_mrp_dataFuel_eq (data : List Nat) :
    parse_mrp_dataFuel data = some (parse_mrp_data data) := by
  unfold parse_mrp_dataFuel parse_mrp_data
  by_cases h : data.length < 2
  · simp [h]
  · simp only [if_neg h]
    cases rustSlice data 0 2 with
    | none => rfl
    | some s =>
      rw [parseTLVsFuel_spec data (data.length + 1) 2 (by omega)]
      cases parseTLVs data 2 <;> rfl

/-- The 52-byte test payload from the repository's test suite. -/
def testPayload : List Nat :=
  [0x00, 0x01, 0x02, 0x12, 0xa0, 0x00, 0x00, 0x0e, 0x8c, 0xe0, 0x2f, 0x22,
   0x00, 0x00, 0x00, 0x00, 0x00, 0x01, 0x19, 0xfa, 0x3f, 0xd4, 0x01, 0x12,
   0x05, 0x7e, 0xc3, 0xd6, 0x87, 0xfe, 0x78, 0x9e, 0x03, 0xa1, 0xac, 0xdb,
   0xe5, 0xbf, 0xcb, 0xbc, 0x27, 0xb6, 0x7f, 0x06, 0x08, 0x00, 0x06, 0x00,
   0x00, 0x00, 0x00, 0x00]

/-- C1: decoding the 52-byte test payload succeeds and yields version
`0x0001` and exactly the four records `Test` (priority `0xa000`, source
address `00:0e:8c:e0:2f:22`, port_role `0`, ring_state `0`, transition
`1`, timestamp `0x19fa3fd4`), `Common` (sequence_id `0x057e`, domain id
`c3d687fe-789e-03a1-acdb-e5bfcbbc27b6`), `Option` (OUI `08:00:06`,
ed1_type `0`, ed1_manufacturer_data `0`) and `End`, in wire order. -/
theorem decode_testPayload :
    parse_mrp_data testPayload =
      .ok ⟨0x0001,
        [⟨0x02, 0x12, .MRPTest ⟨0xa000, ⟨[0x00, 0x0e, 0x8c, 0xe0, 0x2f, 0x22]⟩,
            0x0000, 0x0000, 0x0001, 0x19fa3fd4⟩⟩,
         ⟨0x01, 0x12, .MRPCommon ⟨0x057e,
            ⟨[0xc3, 0xd6, 0x87, 0xfe, 0x78, 0x9e, 0x03, 0xa1,
              0xac, 0xdb, 0xe5, 0xbf, 0xcb, 0xbc, 0x27, 0xb6]⟩⟩⟩,
         ⟨0x7f, 0x06, .MRPOption ⟨[0x08, 0x00, 0x06], 0x00, 0x0000⟩⟩,
         ⟨0x00, 0, .MRPEnd⟩]⟩ := by
  have h := parse_mrp_dataFuel_eq testPayload
  have h2 : parse_mrp_dataFuel testPayload =
      some (.ok ⟨0x0001,
        [⟨0x02, 0x12, .MRPTest ⟨0xa000, ⟨[0x00, 0x0e, 0x8c, 0xe0, 0x2f, 0x22]⟩,
            0x0000, 0x0000, 0x0001, 0x19fa3fd4⟩⟩,
         ⟨0x01, 0x12, .MRPCommon ⟨0x057e,
            ⟨[0xc3, 0xd6, 0x87, 0xfe, 0x78, 0x9e, 0x03, 0xa1,
              0xac, 0xdb, 0xe5, 0xbf, 0xcb, 0xbc, 0x27, 0xb6]⟩⟩⟩,
         ⟨0x7f, 0x06, .MRPOption ⟨[0x08, 0x00, 0x06], 0x00, 0x0000⟩⟩,
         ⟨0x00, 0, .MRPEnd⟩]⟩) := by rfl
  exact (Option.some.inj (h2.symm.trans h)).symm

instance {ε α : Type} [DecidableEq ε] [DecidableEq α] : DecidableEq (Except ε α) :=
  fun x y =>
    match x, y with
    | .ok a, .ok b =>
      if h : a = b then .isTrue (congrArg Except.ok h)
      else .isFalse fun hc => h (Except.ok.inj hc)
    | .error a, .error b =>
      if h : a = b then .isTrue (congrArg Except.error h)
      else .isFalse fun hc => h (Except.error.inj hc)
    | .ok _, .error _ => .isFalse fun hc => Except.noConfusion hc
    | .error _, .ok _ => .isFalse fun hc => Except.noConfusion hc

theorem parse_eval (data : List Nat) (r : Except ParseError MRPData)
    (h : parse_mrp_dataFuel data = some r) : parse_mrp_data data = r := by
  have h2 := parse_mrp_dataFuel_eq data
  rw [h] at h2
  exact (Option.some.inj h2).symm

theorem rustSlice_eq_some (x : List Nat) (a b : Nat) (h1 : a ≤ b) (h2 : b ≤ x.length) :
    rustSlice x a b = some ((x.drop a).take (b - a)) := by
  unfold rustSlice
  rw [if_pos ⟨h1, h2⟩]

/-- C2: every buffer-exhaustion condition yields the clean `TooShort`
failure, not a fault: fewer than 2 bytes total; fewer than 2 bytes left at
a record boundary; fewer than `declared_length` bytes left after a record
header; and in particular the empty and the 1-byte buffer. -/
theorem decode_too_short :
    (∀ data : List Nat, data.length < 2 → parse_mrp_data data = .error .tooShort) ∧
    (∀ (data : List Nat) (offset : Nat), offset < data.length →
      data.length < offset + 2 → parseTLVs data offset = .error .tooShort) ∧
    (∀ (data : List Nat) (offset : Nat), offset + 2 ≤ data.length →
      data.length < offset + 2 + data.getD (offset + 1) 0 →
      parseTLVs data offset = .error .tooShort) ∧
    parse_mrp_data [] = .error .tooShort ∧
    parse_mrp_data [0x00] = .error .tooShort := by
  refine ⟨fun data h => ?_, fun data offset h1 h2 => ?_, fun data offset h2 h3 => ?_, ?_, ?_⟩
  · unfold parse_mrp_data
    rw [if_pos h]
  · rw [parseTLVs, dif_pos h1, if_pos h2]
  · rw [parseTLVs, dif_pos (by omega), if_neg (by omega), if_pos h3]
  · exact parse_eval _ _ rfl
  · exact parse_eval _ _ rfl

/-- C2 witness: the 1-byte buffer and two concrete loop states. -/
theorem decode_too_short_witness :
    parse_mrp_data [0x00] = .error .tooShort ∧
    parseTLVs [0x00, 0x01, 0x02] 2 = .error .tooShort ∧
    parseTLVs [0x00, 0x01, 0x02, 0x05] 2 = .error .tooShort := by
  refine ⟨decode_too_short.2.2.2.2, ?_, ?_⟩
  · exact decode_too_short.2.1 [0x00, 0x01, 0x02] 2 (by decide) (by decide)
  · exact decode_too_short.2.2.1 [0x00, 0x01, 0x02, 0x05] 2 (by decide) (by decide)

/-- C10: a 2-byte payload (version only) decodes successfully to the
big-endian version with an empty record list. -/
theorem decode_version_only (a b : Nat) (ha : a < 256) (hb : b < 256) :
    parse_mrp_data [a, b] = .ok ⟨256 * a + b, []⟩ := by
  unfold parse_mrp_data
  rw [if_neg (by simp)]
  rw [rustSlice_eq_some [a, b] 0 2 (by omega) (by simp)]
  dsimp only []
  have hp : parseTLVs [a, b] 2 = .ok [] := by
    rw [parseTLVs, dif_neg (by simp)]
  rw [hp]
  rfl

/-- C10 witness: the concrete 2-byte payload `[0x12, 0x34]`. -/
theorem decode_version_only_witness :
    parse_mrp_data [0x12, 0x34] = .ok ⟨0x1234, []⟩ :=
  decode_version_only 0x12 0x34 (by decide) (by decide)

theorem parseRecord_unknown (k len : Nat) (body : List Nat)
    (h2 : k ≠ 0x02) (h1 : k ≠ 0x01) (h7 : k ≠ 0x7f) (h0 : k ≠ 0x00) :
    parseRecord k len body = .error (.unknownKind k) := by
  unfold parseRecord
  rw [if_neg h2, if_neg h1, if_neg h7, if_neg h0]

theorem parseRecord_end (len : Nat) (body : List Nat) :
    parseRecord 0x00 len body = .ok ⟨0x00, 0, .MRPEnd⟩ := by
  unfold parseRecord
  rw [if_neg (by decide), if_neg (by decide), if_neg (by decide), if_pos rfl]

/-- C4: a record whose kind byte is outside `{0x00, 0x01, 0x02, 0x7F}`
(and whose declared body fits the remaining buffer, the check the code
performs first) makes the loop fail with `UnknownRecordKind` carrying
that byte, so no document is produced; concretely, kind `0x05` yields
`UnknownRecordKind(0x05)` and no `Document`. -/
theorem decode_unknown_kind :
    (∀ (data : List Nat) (offset : Nat), offset + 2 ≤ data.length →
      offset + 2 + data.getD (offset + 1) 0 ≤ data.length →
      data.getD offset 0 ≠ 0x00 → data.getD offset 0 ≠ 0x01 →
      data.getD offset 0 ≠ 0x02 → data.getD offset 0 ≠ 0x7f →
      parseTLVs data offset = .error (.unknownKind (data.getD offset 0))) ∧
    parse_mrp_data [0x00, 0x01, 0x05, 0x00] = .error (.unknownKind 0x05) ∧
    ∀ d : MRPData, parse_mrp_data [0x00, 0x01, 0x05, 0x00] ≠ .ok d := by
  refine ⟨fun data offset hlen hbody h0 h1 h2 h7 => ?_, parse_eval _ _ rfl, ?_⟩
  · rw [parseTLVs, dif_pos (by omega), if_neg (by omega), if_neg (by omega),
      rustSlice_eq_some data (offset + 2) (offset + 2 + data.getD (offset + 1) 0)
        (by omega) (by omega)]
    dsimp only []
    rw [parseRecord_unknown _ _ _ h2 h1 h7 h0]
  · intro d h
    rw [parse_eval [0x00, 0x01, 0x05, 0x00] (.error (.unknownKind 0x05)) rfl] at h
    exact Except.noConfusion h

/-- C4 witness: kind `0x03` at offset 2 of a 4-byte buffer. -/
theorem decode_unknown_kind_witness :
    parseTLVs [0x00, 0x01, 0x03, 0x00] 2 = .error (.unknownKind 0x03) := by
  have h := decode_unknown_kind.1 [0x00, 0x01, 0x03, 0x00] 2
    (by decide) (by decide) (by decide) (by decide) (by decide) (by decide)
  exact h

/-- C6: an `End` record does not stop the loop early: when a well-formed
`End` record sits at the cursor, the loop's result is the result of
parsing the rest of the buffer with the `End` record consed in front, so
on success the records after the `End` follow it in the sequence. -/
theorem decode_continues_after_end (data : List Nat) (offset : Nat)
    (hlen : offset + 2 ≤ data.length)
    (hkind : data.getD offset 0 = 0x00)
    (hbody : offset + 2 + data.getD (offset + 1) 0 ≤ data.length) :
    parseTLVs data offset =
      (parseTLVs data (offset + 2 + data.getD (offset + 1) 0)).map
        (fun rest => ⟨0x00, 0, .MRPEnd⟩ :: rest) := by
  rw [parseTLVs, dif_pos (by omega), if_neg (by omega), if_neg (by omega),
    rustSlice_eq_some data (offset + 2) (offset + 2 + data.getD (offset + 1) 0)
      (by omega) (by omega)]
  dsimp only []
  rw [hkind, parseRecord_end]
  cases parseTLVs data (offset + 2 + data.getD (offset + 1) 0) <;> rfl

/-- C6 witness: an `End` record at offset 2 followed by a version-only
style tail containing one more `End` record. -/
theorem decode_continues_after_end_witness :
    parseTLVs [0x00, 0x01, 0x00, 0x00, 0x00, 0x00] 2 =
      (parseTLVs [0x00, 0x01, 0x00, 0x00, 0x00, 0x00] 4).map
        (fun rest => ⟨0x00, 0, .MRPEnd⟩ :: rest) :=
  decode_continues_after_end [0x00, 0x01, 0x00, 0x00, 0x00, 0x00] 2
    (by decide) (by decide) (by decide)

/-- C7: the loop terminates on every input: since the cursor advances by
`2 + declared_length ≥ 2` each iteration, `data.length - offset`
iterations of fuel always suffice (the fuel-indexed loop never runs out),
and the loop exits with the records collected so far once the cursor
reaches or passes the end of the buffer, with no end marker needed. -/
theorem decode_loop_terminates :
    (∀ (data : List Nat) (offset fuel : Nat), data.length - offset < fuel →
      parseTLVsFuel fuel data offset = some (parseTLVs data offset)) ∧
    (∀ (data : List Nat) (offset : Nat), data.length ≤ offset →
      parseTLVs data offset = .ok []) := by
  refine ⟨fun data offset fuel h => parseTLVsFuel_spec data fuel offset h,
    fun data offset h => ?_⟩
  rw [parseTLVs, dif_neg (by omega)]

/-- C7 witness: on the 52-byte test payload, 51 units of fuel suffice
from offset 2, and the loop exits immediately at offset 52. -/
theorem decode_loop_terminates_witness :
    parseTLVsFuel 51 testPayload 2 = some (parseTLVs testPayload 2) ∧
    parseTLVs testPayload 52 = .ok [] :=
  ⟨decode_loop_terminates.1 testPayload 2 51 (by decide),
   decode_loop_terminates.2 testPayload 52 (by decide)⟩

/-- C3 under the code as written: a `Test` record with declared length 0
(body fits the buffer), a `Common` record with declared length 0, and an
`Option` record with declared length 0 each make the decoder perform an
out-of-bounds fixed-offset sub-slice of the body — a panic, not a clean
`TooShort`/`MalformedRecord` failure. -/
theorem short_record_panics :
    parse_mrp_data [0x00, 0x01, 0x02, 0x00] = .error .panic ∧
    parse_mrp_data [0x00, 0x01, 0x01, 0x00] = .error .panic ∧
    parse_mrp_data [0x00, 0x01, 0x7f, 0x00] = .error .panic :=
  ⟨parse_eval _ _ rfl, parse_eval _ _ rfl, parse_eval _ _ rfl⟩

theorem parseRecord_ok_inv (k len : Nat) (body : List Nat) (hdr : MRPTLVHeader)
    (h : parseRecord k len body = .ok hdr) :
    hdr.tlv_type = k ∧ (k = 0 → hdr.length = 0) := by
  unfold parseRecord at h
  by_cases hk2 : k = 0x02
  · rw [if_pos hk2] at h
    split at h
    · injection h with h'
      subst h'
      exact ⟨rfl, fun h0 => by omega⟩
    · simp at h
  · rw [if_neg hk2] at h
    by_cases hk1 : k = 0x01
    · rw [if_pos hk1] at h
      split at h
      · split at h
        · injection h with h'
          subst h'
          exact ⟨rfl, fun h0 => by omega⟩
        · simp at h
      · simp at h
    · rw [if_neg hk1] at h
      by_cases hk7 : k = 0x7f
      · rw [if_pos hk7] at h
        split at h
        · injection h with h'
          subst h'
          exact ⟨rfl, fun h0 => by omega⟩
        · simp at h
      · rw [if_neg hk7] at h
        by_cases hk0 : k = 0x00
        · rw [if_pos hk0] at h
          injection h with h'
          subst h'
          exact ⟨rfl, fun _ => rfl⟩
        · rw [if_neg hk0] at h
          simp at h

theorem parseTLVsFuel_end_zero (data : List Nat) :
    ∀ fuel offset l, parseTLVsFuel fuel data offset = some (.ok l) →
      ∀ hdr ∈ l, hdr.tlv_type = 0 → hdr.length = 0 := by
  intro fuel
  induction fuel with
  | zero =>
    intro offset l h
    simp [parseTLVsFuel] at h
  | succ n ih =>
    intro offset l h hdr hmem h0
    rw [parseTLVsFuel] at h
    dsimp only [] at h
    split at h
    · split at h
      · simp at h
      · split at h
        · simp at h
        · split at h
          · simp at h
          · split at h
            · simp at h
            · split at h
              · simp at h
              · simp at h
              · rename_i hdr1 hrec x rest hloop
                injection h with h'
                injection h' with h''
                subst h''
                rcases List.mem_cons.mp hmem with hh | hh
                · subst hh
                  exact (parseRecord_ok_inv _ _ _ _ hrec).2
                    ((parseRecord_ok_inv _ _ _ _ hrec).1.symm.trans h0)
                · exact ih _ rest hloop hdr hh h0
    · injection h with h'
      injection h' with h''
      subst h''
      simp at hmem

/-- C5: in every successfully decoded document, a record whose kind is
the terminator `0x00` has stored length 0, whatever length byte the wire
declared. -/
theorem decode_end_records_length_zero (data : List Nat) (d : MRPData)
    (h : parse_mrp_data data = .ok d) (hdr : MRPTLVHeader)
    (hmem : hdr ∈ d.tlv_headers) (h0 : hdr.tlv_type = 0) : hdr.length = 0 := by
  unfold parse_mrp_data at h
  split at h
  · simp at h
  · split at h
    · simp at h
    · dsimp only [] at h
      split at h
      · simp at h
      · rename_i ths heq
        injection h with h'
        subst h'
        have hf := parseTLVsFuel_spec data (data.length + 1) 2 (by omega)
        rw [heq] at hf
        exact parseTLVsFuel_end_zero data (data.length + 1) 2 ths hf hdr hmem h0

/-- C5 witness: the payload `[0x00, 0x01, 0x00, 0x02, 0xaa, 0xbb]` holds
one `End` record that declares length 2 on the wire, yet the stored
length of the decoded record is 0. -/
theorem decode_end_records_length_zero_witness :
    (⟨0x00, 0, .MRPEnd⟩ : MRPTLVHeader).length = 0 :=
  decode_end_records_length_zero [0x00, 0x01, 0x00, 0x02, 0xaa, 0xbb]
    ⟨0x0001, [⟨0x00, 0, .MRPEnd⟩]⟩ (parse_eval _ _ rfl)
    ⟨0x00, 0, .MRPEnd⟩ (by simp) rfl

theorem rustSlice_some_length (x : List Nat) (a b : Nat) (s : List Nat)
    (h : rustSlice x a b = some s) : s.length = b - a := by
  unfold rustSlice at h
  split at h
  · rename_i hc
    obtain ⟨hc1, hc2⟩ := hc
    injection h with h'
    subst h'
    simp [List.length_take, List.length_drop]
    omega
  · simp at h

theorem parseRecord_no_malformedUuid (k len : Nat) (body : List Nat) :
    parseRecord k len body ≠ .error .malformedUuid := by
  intro h
  unfold parseRecord at h
  by_cases hk2 : k = 0x02
  · rw [if_pos hk2] at h
    split at h <;> simp at h
  · rw [if_neg hk2] at h
    by_cases hk1 : k = 0x01
    · rw [if_pos hk1] at h
      split at h
      · rename_i s1 s2 heq1 heq2
        split at h
        · simp at h
        · rename_i hu
          have hl := rustSlice_some_length body 2 18 s2 heq2
          unfold uuidFromSlice at hu
          rw [if_pos (by omega)] at hu
          simp at hu
      · simp at h
    · rw [if_neg hk1] at h
      by_cases hk7 : k = 0x7f
      · rw [if_pos hk7] at h
        split at h <;> simp at h
      · rw [if_neg hk7] at h
        by_cases hk0 : k = 0x00
        · rw [if_pos hk0] at h
          simp at h
        · rw [if_neg hk0] at h
          simp at h

theorem parseTLVsFuel_no_malformedUuid (data : List Nat) :
    ∀ fuel offset, parseTLVsFuel fuel data offset ≠ some (.error .malformedUuid) := by
  intro fuel
  induction fuel with
  | zero =>
    intro offset h
    simp [parseTLVsFuel] at h
  | succ n ih =>
    intro offset h
    rw [parseTLVsFuel] at h
    dsimp only [] at h
    split at h
    · split at h
      · simp at h
      · split at h
        · simp at h
        · split at h
          · simp at h
          · split at h
            · rename_i e herr
              injection h with h'
              injection h' with h''
              exact parseRecord_no_malformedUuid _ _ _ (h'' ▸ herr)
            · split at h
              · simp at h
              · rename_i e hloop
                injection h with h'
                injection h' with h''
                rw [h''] at hloop
                exact ih _ hloop
              · simp at h
    · simp at h

theorem parse_no_malformedUuid (data : List Nat) :
    parse_mrp_data data ≠ .error .malformedUuid := by
  intro h
  unfold parse_mrp_data at h
  split at h
  · simp at h
  · split at h
    · simp at h
    · dsimp only [] at h
      split at h
      · rename_i e heq
        injection h with h'
        have hf := parseTLVsFuel_spec data (data.length + 1) 2 (by omega)
        rw [heq, h'] at hf
        exact parseTLVsFuel_no_malformedUuid data _ 2 hf
      · simp at h

/-- C8: `MalformedUuid` is unreachable: the decoder never returns it on
any input (on a `Common` body shorter than 18 bytes the sub-slice itself
faults first, and on one with at least 18 bytes the 16-byte slice always
forms a UUID), and concretely every body of at least 18 bytes yields a
16-byte slice on which UUID construction succeeds. -/
theorem decode_no_malformed_uuid :
    (∀ data : List Nat, parse_mrp_data data ≠ .error .malformedUuid) ∧
    (∀ body : List Nat, 18 ≤ body.length →
      rustSlice body 2 18 = some ((body.drop 2).take 16) ∧
      (uuidFromSlice ((body.drop 2).take 16)).isSome) := by
  refine ⟨parse_no_malformedUuid, fun body hb => ⟨?_, ?_⟩⟩
  · exact rustSlice_eq_some body 2 18 (by omega) hb
  · unfold uuidFromSlice
    rw [if_pos ?_]
    · simp
    · simp [List.length_take, List.length_drop]
      omega

/-- C8 witness: the all-zero 18-byte body. -/
theorem decode_no_malformed_uuid_witness :
    rustSlice (List.replicate 18 0) 2 18 =
      some (((List.replicate 18 0).drop 2).take 16) ∧
    (uuidFromSlice (((List.replicate 18 0).drop 2).take 16)).isSome :=
  decode_no_malformed_uuid.2 (List.replicate 18 0) (by simp)

/-- Zero-padded lowercase hex digits, at least `w` of them: the digit part
of Rust's `{:0Nx}` format for values that fit (u8/u16/u32 here). -/
def hexPad (w n : Nat) : String :=
  let s := Nat.toDigits 16 n
  String.mk (List.replicate (w - s.length) '0' ++ s)

/-- Rust's alternate hex format `{:#0(w+2)x}`: `0x` then `w` padded digits. -/
def fmtHexPrefixed (w n : Nat) : String :=
  "0x" ++ hexPad w n

/-- `Display for MacAddress`: six `{:02x}` octets joined by colons. -/
def macToString (m : MacAddress) : String :=
  hexPad 2 (m.bytes.getD 0 0) ++ ":" ++ hexPad 2 (m.bytes.getD 1 0) ++ ":" ++
  hexPad 2 (m.bytes.getD 2 0) ++ ":" ++ hexPad 2 (m.bytes.getD 3 0) ++ ":" ++
  hexPad 2 (m.bytes.getD 4 0) ++ ":" ++ hexPad 2 (m.bytes.getD 5 0)

/-- `Display for uuid::Uuid`: canonical dashed lowercase-hex form. -/
def uuidToString (u : Uuid) : String :=
  hexPad 2 (u.bytes.getD 0 0) ++ hexPad 2 (u.bytes.getD 1 0) ++
  hexPad 2 (u.bytes.getD 2 0) ++ hexPad 2 (u.bytes.getD 3 0) ++ "-" ++
  hexPad 2 (u.bytes.getD 4 0) ++ hexPad 2 (u.bytes.getD 5 0) ++ "-" ++
  hexPad 2 (u.bytes.getD 6 0) ++ hexPad 2 (u.bytes.getD 7 0) ++ "-" ++
  hexPad 2 (u.bytes.getD 8 0) ++ hexPad 2 (u.bytes.getD 9 0) ++ "-" ++
  hexPad 2 (u.bytes.getD 10 0) ++ hexPad 2 (u.bytes.getD 11 0) ++
  hexPad 2 (u.bytes.getD 12 0) ++ hexPad 2 (u.bytes.getD 13 0) ++
  hexPad 2 (u.bytes.getD 14 0) ++ hexPad 2 (u.bytes.getD 15 0)

/-- `Display for MRPTestData`. -/
def mrpTestDataToString (d : MRPTestData) : String :=
  "    MRP Test Data:\n      Prio: " ++ fmtHexPrefixed 4 d.prio ++
  "\n      SA: " ++ macToString d.sa ++
  "\n      Port Role: " ++ fmtHexPrefixed 4 d.port_role ++
  "\n      Ring State: " ++ fmtHexPrefixed 4 d.ring_state ++
  "\n      Transition: " ++ fmtHexPrefixed 4 d.transition ++
  "\n      Timestamp: " ++ fmtHexPrefixed 8 d.timestamp ++ "\n"

/-- `Display for MRPCommonData`. -/
def mrpCommonDataToString (d : MRPCommonData) : String :=
  "    MRP Common Data:\n      Sequence ID: " ++ fmtHexPrefixed 4 d.sequence_id ++
  "\n      Domain UUID: " ++ uuidToString d.domain_uuid ++ "\n"

/-- `Display for MRPOptionData`. -/
def mrpOptionDataToString (d : MRPOptionData) : String :=
  "    MRP Option Data:\n      Manufacturer OUI: " ++
  hexPad 2 (d.manufacturer_oui.getD 0 0) ++ ":" ++
  hexPad 2 (d.manufacturer_oui.getD 1 0) ++ ":" ++
  hexPad 2 (d.manufacturer_oui.getD 2 0) ++
  "\n      Ed1 Type: " ++ fmtHexPrefixed 2 d.ed1_type ++
  "\n      Ed1 Manufacturer Data: " ++ fmtHexPrefixed 4 d.ed1_manufacturer_data ++ "\n"

/-- `Display for MRPTLVData`. -/
def mrpTLVDataToString (d : MRPTLVData) : String :=
  match d with
  | .MRPTest t => mrpTestDataToString t
  | .MRPCommon c => mrpCommonDataToString c
  | .MRPOption o => mrpOptionDataToString o
  | .MRPEnd => "  End of MRP Data\n"

/-- `Display for MRPTLVHeader`. -/
def mrpTLVHeaderToString (h : MRPTLVHeader) : String :=
  "  TLV Type: " ++ fmtHexPrefixed 2 h.tlv_type ++ ", Length: " ++
  Nat.repr h.length ++ "\n  Data:\n" ++ mrpTLVDataToString h.data

/-- `Display for MRPData`: the version header line then one block per
record, in order. -/
def mrpDataToString (d : MRPData) : String :=
  "MRP Version: " ++ fmtHexPrefixed 4 d.version ++ "\n" ++
  String.join (d.tlv_headers.map mrpTLVHeaderToString)

theorem mrpDataToString_shape (d : MRPData) :
    mrpDataToString d =
      "MRP Version: 0x" ++ (hexPad 4 d.version ++ ("\n" ++
        String.join (d.tlv_headers.map mrpTLVHeaderToString))) := by
  unfold mrpDataToString fmtHexPrefixed
  simp only [String.append_assoc]
  rw [← String.append_assoc "MRP Version: " "0x"]
  rw [show ("MRP Version: " ++ "0x" : String) = "MRP Version: 0x" from rfl]

/-- C9: rendering a decoded document is deterministic and total (equal
documents render to equal text), always yields a non-empty string that
begins with the `MRP Version:` header line followed by one block per
record, and the hardware address of the test payload renders as the six
colon-separated lowercase hex octets `00:0e:8c:e0:2f:22`. -/
theorem render_deterministic_nonempty :
    (∀ d1 d2 : MRPData, d1 = d2 → mrpDataToString d1 = mrpDataToString d2) ∧
    (∀ d : MRPData, mrpDataToString d ≠ "" ∧
      mrpDataToString d =
        "MRP Version: 0x" ++ (hexPad 4 d.version ++ ("\n" ++
          String.join (d.tlv_headers.map mrpTLVHeaderToString)))) ∧
    macToString (parse_mac_address [0x00, 0x0e, 0x8c, 0xe0, 0x2f, 0x22]) =
      "00:0e:8c:e0:2f:22" := by
  refine ⟨fun d1 d2 h => congrArg mrpDataToString h, fun d => ⟨?_, mrpDataToString_shape d⟩, rfl⟩
  intro hemp
  have h2 := congrArg String.length ((mrpDataToString_shape d).symm.trans hemp)
  rw [String.length_append] at h2
  rw [show ("MRP Version: 0x" : String).length = 15 from rfl] at h2
  rw [show ("" : String).length = 0 from rfl] at h2
  omega

/-- C9 witness: a concrete document with one `End` record. -/
theorem render_deterministic_nonempty_witness :
    mrpDataToString ⟨1, [⟨0x00, 0, .MRPEnd⟩]⟩ = mrpDataToString ⟨1, [⟨0x00, 0, .MRPEnd⟩]⟩ ∧
    mrpDataToString ⟨1, [⟨0x00, 0, .MRPEnd⟩]⟩ ≠ "" :=
  ⟨render_deterministic_nonempty.1 _ _ rfl,
   (render_deterministic_nonempty.2.1 ⟨1, [⟨0x00, 0, .MRPEnd⟩]⟩).1⟩
